import Mathlib

/-!
Verification of the Newton's-second-law tutor backend
(`app_with_ontology.py`): a shallow embedding of its arithmetic helpers,
numeric error classifier, unit check, solver and `/api/solve` endpoint,
with the program's numeric values modelled as exact rationals.
-/

namespace NewtonTutor

/-- Embedding of `compute_force(mass, accel) = mass * accel`. -/
def compute_force (mass accel : ℚ) : ℚ := mass * accel

/-- Errors raised inside the solver: Python `ValueError(msg)` and
`ZeroDivisionError`. -/
inductive SolveErr where
  | valueError (msg : String)
  | zeroDivisionError
deriving DecidableEq, Repr

/-- Embedding of `compute_accel(force, mass) = force / mass`; Python raises
`ZeroDivisionError` when `mass == 0`. -/
def compute_accel (force mass : ℚ) : Except SolveErr ℚ :=
  if mass = 0 then .error .zeroDivisionError else .ok (force / mass)

/-- Embedding of `compute_mass(force, accel) = force / accel`; Python raises
`ZeroDivisionError` when `accel == 0`. -/
def compute_mass (force accel : ℚ) : Except SolveErr ℚ :=
  if accel = 0 then .error .zeroDivisionError else .ok (force / accel)

/-- Embedding of `classify_error(student_value, correct_value)`: `None`
arguments become `Option.none`. -/
def classify_error (student_value correct_value : Option ℚ) : String :=
  match student_value with
  | none => "missing"
  | some s =>
    match correct_value with
    | none => "other"
    | some c =>
      let diff := if c = 0 then |s - c| else |s - c| / |c|
      if diff ≤ 1/100 then "none"
      else if diff > 5/100 then "math"
      else "other"

/-- True when the first list is an initial segment of the second
(helper for the substring check below). -/
def charsStartWith : List Char → List Char → Bool
  | [], _ => true
  | _ :: _, [] => false
  | p :: ps, c :: cs => p == c && charsStartWith ps cs

/-- True when `pat` occurs contiguously in the second list. -/
def charsContain (pat : List Char) : List Char → Bool
  | [] => charsStartWith pat []
  | c :: cs => charsStartWith pat (c :: cs) || charsContain pat cs

/-- Embedding of Python's substring test `pat in s`. -/
def strContains (s pat : String) : Bool := charsContain pat.data s.data

/-- The numeric contents of the three quantity slots of a problem
(`numericalValue` of the Mass/Acceleration/Force individuals); `none` means
the slot holds no value. -/
structure Slots where
  mass : Option ℚ
  accel : Option ℚ
  force : Option ℚ
deriving DecidableEq, Repr

/-- Embedding of `create_problem_from_request`: only the numeric slot values
matter to the solver; the ontology bookkeeping (ids, `hasUnit`, `usesFormula`)
is external state with no influence on the computed response. -/
def create_problem_from_request (massVal accelVal forceVal : Option ℚ) : Slots :=
  { mass := massVal, accel := accelVal, force := forceVal }

/-- Embedding of `solve_with_ontology(target, p, mass, accel, force)`:
returns the computed correct value together with the slots after the
write-back, or the raised error. -/
def solve_with_ontology (target : String) (s : Slots) : Except SolveErr (ℚ × Slots) :=
  if target = "force" then
    match s.mass, s.accel with
    | some m, some a =>
      .ok (compute_force m a, { s with force := some (compute_force m a) })
    | _, _ => .error (.valueError ("Mass and acceleration are required to compute force."))
  else if target = "acceleration" then
    match s.force, s.mass with
    | some f, some m =>
      match compute_accel f m with
      | .ok v => .ok (v, { s with accel := some v })
      | .error e => .error e
    | _, _ => .error (.valueError ("Force and mass are required to compute acceleration."))
  else if target = "mass" then
    match s.force, s.accel with
    | some f, some a =>
      match compute_mass f a with
      | .ok v => .ok (v, { s with mass := some v })
      | .error e => .error e
    | _, _ => .error (.valueError ("Force and acceleration are required to compute mass."))
  else .error (.valueError ("Invalid target"))

/-- The external knowledge base, as the core sees it: for each hint
individual, `some text` when the ontology has that individual
(`hasattr(onto, ...)`), `none` otherwise. -/
structure Ontology where
  hintUnits : Option String
  hintFormula : Option String
  hintArithmetic : Option String
deriving DecidableEq, Repr

/-- Embedding of `get_hint_from_ontology(error_type)`; the first argument is
the global `onto` (`none` when the ontology failed to load). -/
def get_hint_from_ontology (kb : Option Ontology) (error_type : String) : String :=
  match kb with
  | none =>
    if error_type = "unit" then
      "Check your units: use N for force, kg for mass, and m/s^2 for acceleration."
    else if error_type = "math" then
      "Re-check your calculation – did you multiply or divide correctly?"
    else
      "Think about which variable is missing and how to rearrange F = m × a."
  | some o =>
    match error_type, o.hintUnits, o.hintFormula, o.hintArithmetic with
    | "unit", some t, _, _ => t
    | "formula", _, some t, _ => t
    | "math", _, _, some t => t
    | _, _, _, _ => "Think about which variable is missing and how to rearrange F = m × a."

/-- Embedding of Python `str.lower()` (the inputs here are ASCII). -/
def strLower (s : String) : String := String.mk (s.data.map Char.toLower)

/-- Truthiness of `get_unit_individual(kind)`: an individual is returned
exactly when the ontology is loaded and the kind is one of the three known
quantities. -/
def get_unit_individual (ontoLoaded : Bool) (kind : String) : Bool :=
  ontoLoaded &&
    (strLower kind == "mass" || strLower kind == "force" || strLower kind == "acceleration")

/-- One `given` quantity from the request body: `{value, unit}` where the
value is `none` when absent or not parseable as a float. -/
structure QuantityInput where
  value : Option ℚ
  unit : String
deriving DecidableEq, Repr

/-- The `given` object of the request body; each key is optional. -/
structure GivenQuantities where
  mass : Option QuantityInput
  acceleration : Option QuantityInput
  force : Option QuantityInput
deriving DecidableEq, Repr

/-- The `studentAnswer` object: `value` is `none` when absent or
unparseable (`to_float`), `unit` defaults to the empty string. -/
structure StudentAnswer where
  value : Option ℚ
  unit : String
deriving DecidableEq, Repr

/-- A `POST /api/solve` request body. -/
structure SolveRequest where
  given : GivenQuantities
  target : String
  studentAnswer : StudentAnswer
deriving DecidableEq, Repr

/-- The JSON body of a 200 response of `/api/solve`. -/
structure SuccessResponse where
  correct : Bool
  correctValue : ℚ
  target : String
  errorType : String
  hint : Option String
deriving DecidableEq, Repr

/-- The possible HTTP responses of `/api/solve`: a 200 with a full result
body, a 400 with only an `error` string, or a 500 with only an `error`
string. -/
inductive ApiResponse where
  | ok (body : SuccessResponse)
  | badRequest (error : String)
  | serverError (error : String)
deriving DecidableEq, Repr

/-- The unit-validation step of `solve()` (lines 317–328): the value of
`error_type` after the loose substring check, before numeric
classification. -/
def unit_check_type (ontoLoaded : Bool) (target student_unit : String) : String :=
  if get_unit_individual ontoLoaded target && !(student_unit == "") then
    if target == "force" && !(strContains student_unit ("N")) then "unit"
    else if target == "mass" && !(strContains student_unit ("kg")) then "unit"
    else if target == "acceleration" && !(strContains student_unit ("m/s")) then "unit"
    else "none"
  else "none"

/-- The error-type-to-hint-key mapping inlined in `solve()`
(lines 338–341). -/
def hint_key (error_type : String) : String :=
  if error_type = "unit" then "unit"
  else if error_type = "math" then "math"
  else if error_type = "formula" then "formula"
  else "other"

/-- The classification and response-building tail of `solve()`
(lines 316–350), run after the solver produced `correct_value`. -/
def classify_and_build (o : Ontology) (target : String) (correct_value : ℚ)
    (student : StudentAnswer) : SuccessResponse :=
  let unit_type := unit_check_type true target student.unit
  let error_type :=
    if unit_type = "none" then classify_error student.value (some correct_value) else unit_type
  let is_correct : Bool := error_type == "none"
  let hint : Option String :=
    if is_correct then none
    else some (get_hint_from_ontology (some o) (hint_key error_type))
  { correct := is_correct, correctValue := correct_value, target := target,
    errorType := error_type, hint := hint }

/-- Embedding of the `/api/solve` endpoint (`solve()` in the source).
`onto` is the process-global ontology handle. -/
def solve (onto : Option Ontology) (req : SolveRequest) : ApiResponse :=
  let target := strLower req.target
  match onto with
  | none => .serverError ("Ontology not available; cannot perform intelligent reasoning.")
  | some o =>
    let slots := create_problem_from_request
      (req.given.mass.bind QuantityInput.value)
      (req.given.acceleration.bind QuantityInput.value)
      (req.given.force.bind QuantityInput.value)
    match solve_with_ontology target slots with
    | .error (.valueError msg) => .badRequest msg
    | .error .zeroDivisionError => .badRequest ("Division by zero – check your input values.")
    | .ok (correct_value, _slots) =>
      .ok (classify_and_build o target correct_value req.studentAnswer)

/-! ## Helper lemmas -/

/-- Unfolding of `classify_error` on two present values. -/
theorem classify_error_some_some (s c : ℚ) :
    classify_error (some s) (some c) =
      (if (if c = 0 then |s - c| else |s - c| / |c|) ≤ 1/100 then "none"
       else if (if c = 0 then |s - c| else |s - c| / |c|) > 5/100 then "math"
       else "other") := rfl

theorem strLower_force : strLower ("force") = "force" := by decide

theorem strLower_mass : strLower ("mass") = "mass" := by decide

theorem strLower_acceleration : strLower ("acceleration") = "acceleration" := by decide

theorem get_unit_individual_force : get_unit_individual true ("force") = true := by decide

theorem get_unit_individual_mass : get_unit_individual true ("mass") = true := by decide

theorem get_unit_individual_accel : get_unit_individual true ("acceleration") = true := by decide

/-- Every 200 response is the classify-and-build record for the value the
solver computed. -/
theorem solve_ok_inv (o : Ontology) (req : SolveRequest) (r : SuccessResponse)
    (hok : solve (some o) req = .ok r) :
    ∃ cv slots2,
      solve_with_ontology (strLower req.target)
        (create_problem_from_request
          (req.given.mass.bind QuantityInput.value)
          (req.given.acceleration.bind QuantityInput.value)
          (req.given.force.bind QuantityInput.value)) = .ok (cv, slots2)
      ∧ r = classify_and_build o (strLower req.target) cv req.studentAnswer := by
  simp only [solve] at hok
  rcases hsw : solve_with_ontology (strLower req.target)
      (create_problem_from_request
        (req.given.mass.bind QuantityInput.value)
        (req.given.acceleration.bind QuantityInput.value)
        (req.given.force.bind QuantityInput.value)) with e | p
  · rw [hsw] at hok
    cases e <;> simp at hok
  · rw [hsw] at hok
    rcases p with ⟨cv, s2⟩
    simp at hok
    exact ⟨cv, s2, rfl, hok.symm⟩

/-- A `ValueError` raised by the solver becomes a 400 with its message. -/
theorem solve_valueError_to_400 (o : Ontology) (req : SolveRequest) (msg : String)
    (h : solve_with_ontology (strLower req.target)
      (create_problem_from_request
        (req.given.mass.bind QuantityInput.value)
        (req.given.acceleration.bind QuantityInput.value)
        (req.given.force.bind QuantityInput.value)) = .error (.valueError msg)) :
    solve (some o) req = .badRequest msg := by
  simp only [solve]
  rw [h]

/-- A `ZeroDivisionError` raised by the solver becomes the fixed 400 body. -/
theorem solve_zeroDivision_to_400 (o : Ontology) (req : SolveRequest)
    (h : solve_with_ontology (strLower req.target)
      (create_problem_from_request
        (req.given.mass.bind QuantityInput.value)
        (req.given.acceleration.bind QuantityInput.value)
        (req.given.force.bind QuantityInput.value)) = .error .zeroDivisionError) :
    solve (some o) req = .badRequest ("Division by zero – check your input values.") := by
  simp only [solve]
  rw [h]

/-- A failed unit check produces `error_type = "unit"` before numeric
classification runs. -/
theorem unit_check_fails_gives_unit (target u : String) (hne : u ≠ "")
    (hfail : (target = "force" ∧ strContains u ("N") = false)
           ∨ (target = "mass" ∧ strContains u ("kg") = false)
           ∨ (target = "acceleration" ∧ strContains u ("m/s") = false)) :
    unit_check_type true target u = "unit" := by
  rcases hfail with ⟨ht, hc⟩ | ⟨ht, hc⟩ | ⟨ht, hc⟩ <;> subst ht <;>
    simp [unit_check_type, get_unit_individual_force, get_unit_individual_mass,
      get_unit_individual_accel, hc, hne]

/-- When the unit check failed, the whole response is forced to the `unit`
category with `correct = false`. -/
theorem classify_and_build_unit (o : Ontology) (target : String) (cv : ℚ)
    (st : StudentAnswer) (h : unit_check_type true target st.unit = "unit") :
    classify_and_build o target cv st =
      { correct := false, correctValue := cv, target := target, errorType := "unit",
        hint := some (get_hint_from_ontology (some o) ("unit")) } := by
  simp [classify_and_build, h, hint_key]

/-- A passed unit check followed by a `math` classification yields the
`math` response with the arithmetic hint. -/
theorem classify_and_build_math (o : Ontology) (target : String) (cv : ℚ)
    (st : StudentAnswer) (hu : unit_check_type true target st.unit = "none")
    (hc : classify_error st.value (some cv) = "math") :
    classify_and_build o target cv st =
      { correct := false, correctValue := cv, target := target, errorType := "math",
        hint := some (get_hint_from_ontology (some o) ("math")) } := by
  have hk : hint_key ("math") = "math" := by decide
  simp [classify_and_build, hu, hc, hk]

/-- A passed unit check followed by a `none` classification yields the
correct response with no hint. -/
theorem classify_and_build_none (o : Ontology) (target : String) (cv : ℚ)
    (st : StudentAnswer) (hu : unit_check_type true target st.unit = "none")
    (hc : classify_error st.value (some cv) = "none") :
    classify_and_build o target cv st =
      { correct := true, correctValue := cv, target := target, errorType := "none",
        hint := none } := by
  simp [classify_and_build, hu, hc]

/-- The shape of every response built by `classify_and_build`. -/
theorem classify_and_build_cases (o : Ontology) (target : String) (cv : ℚ)
    (st : StudentAnswer) :
    ∃ et : String, classify_and_build o target cv st =
      { correct := et == "none", correctValue := cv, target := target, errorType := et,
        hint := if et == "none" then none
                else some (get_hint_from_ontology (some o) (hint_key et)) } := by
  refine ⟨(if unit_check_type true target st.unit = "none"
           then classify_error st.value (some cv)
           else unit_check_type true target st.unit), ?_⟩
  rfl

/-- Missing mass or acceleration makes the force branch of the solver raise
its `MissingInput` `ValueError`. -/
theorem solve_with_ontology_force_missing (s : Slots)
    (h : s.mass = none ∨ s.accel = none) :
    solve_with_ontology ("force") s =
      .error (.valueError ("Mass and acceleration are required to compute force.")) := by
  rcases h with h | h
  · simp [solve_with_ontology, h]
  · rcases hm : s.mass with _ | m
    · simp [solve_with_ontology, hm]
    · simp [solve_with_ontology, hm, h]

/-- The mass branch of the solver divides by the acceleration and raises
`ZeroDivisionError` when it is 0. -/
theorem solve_with_ontology_mass_accel_zero (s : Slots) (f : ℚ)
    (hf : s.force = some f) (ha : s.accel = some 0) :
    solve_with_ontology ("mass") s = .error .zeroDivisionError := by
  simp [solve_with_ontology, hf, ha, compute_mass]

/-- The acceleration branch of the solver divides by the mass and raises
`ZeroDivisionError` when it is 0. -/
theorem solve_with_ontology_accel_mass_zero (s : Slots) (f : ℚ)
    (hf : s.force = some f) (hm : s.mass = some 0) :
    solve_with_ontology ("acceleration") s = .error .zeroDivisionError := by
  simp [solve_with_ontology, hf, hm, compute_accel]

/-- Evaluation of a successful `target = "force"` request: the endpoint
answers with the classified response for `mass * acceleration`. -/
theorem solve_force_eval (o : Ontology) (req : SolveRequest) (m a : ℚ)
    (ht : strLower req.target = "force")
    (hm : req.given.mass.bind QuantityInput.value = some m)
    (ha : req.given.acceleration.bind QuantityInput.value = some a) :
    solve (some o) req = .ok (classify_and_build o ("force") (m * a) req.studentAnswer) := by
  have hsw : solve_with_ontology (strLower req.target)
      (create_problem_from_request
        (req.given.mass.bind QuantityInput.value)
        (req.given.acceleration.bind QuantityInput.value)
        (req.given.force.bind QuantityInput.value)) =
      .ok (m * a,
        { mass := some m, accel := some a,
          force := some (m * a) }) := by
    rw [ht]
    simp [solve_with_ontology, create_problem_from_request, hm, ha, compute_force]
  simp only [solve]
  rw [hsw, ht]

/-- The default knowledge-base handle used for concrete scenarios: loaded,
but with none of the three hint individuals present. -/
def kb0 : Ontology := { hintUnits := none, hintFormula := none, hintArithmetic := none }

/-! ## Claims -/

/-- C1: `classify(studentValue, correctValue)` satisfies its full contract:
absent student value gives `missing`; absent correct value gives `other`;
otherwise, with `diff` the absolute error when the correct value is 0 and the
relative error otherwise, `diff ≤ 0.01` gives `none`, `diff > 0.05` gives
`math`, and `0.01 < diff ≤ 0.05` gives `other`; in particular relative error
exactly 0.01 gives `none` and exactly 0.05 gives `other`. -/
theorem classify_error_contract (s c : ℚ) :
    classify_error none (some c) = "missing"
  ∧ classify_error none none = "missing"
  ∧ classify_error (some s) none = "other"
  ∧ ((if c = 0 then |s - c| else |s - c| / |c|) ≤ 1/100 →
       classify_error (some s) (some c) = "none")
  ∧ ((if c = 0 then |s - c| else |s - c| / |c|) > 5/100 →
       classify_error (some s) (some c) = "math")
  ∧ (1/100 < (if c = 0 then |s - c| else |s - c| / |c|) →
       (if c = 0 then |s - c| else |s - c| / |c|) ≤ 5/100 →
       classify_error (some s) (some c) = "other")
  ∧ (c ≠ 0 → |s - c| / |c| = 1/100 → classify_error (some s) (some c) = "none")
  ∧ (c ≠ 0 → |s - c| / |c| = 5/100 → classify_error (some s) (some c) = "other") := by
  refine ⟨rfl, rfl, rfl, ?_, ?_, ?_, ?_, ?_⟩
  · intro h
    rw [classify_error_some_some, if_pos h]
  · intro h
    rw [classify_error_some_some, if_neg (by linarith), if_pos h]
  · intro h1 h2
    rw [classify_error_some_some, if_neg (by linarith), if_neg (by linarith)]
  · intro hc h
    rw [classify_error_some_some, if_neg hc, h]
    norm_num
  · intro hc h
    rw [classify_error_some_some, if_neg hc, h]
    norm_num

/-- Witness for C1 at the two boundary inputs: relative error exactly 0.01
(student 1.01, correct 1) classifies as `none`, and exactly 0.05
(student 1.05, correct 1) classifies as `other`. -/
theorem classify_error_contract_witness :
    classify_error (some (101/100)) (some 1) = "none"
  ∧ classify_error (some (21/20)) (some 1) = "other" :=
  ⟨(classify_error_contract (101/100) 1).2.2.2.2.2.2.1 (by norm_num)
      (by rw [abs_of_nonneg (by norm_num), abs_of_nonneg (by norm_num)]; norm_num),
   (classify_error_contract (21/20) 1).2.2.2.2.2.2.2 (by norm_num)
      (by rw [abs_of_nonneg (by norm_num), abs_of_nonneg (by norm_num)]; norm_num)⟩

/-- C6: the arithmetic engine's inversions round-trip exactly over the
rationals: for positive mass and acceleration,
`compute_mass (compute_force m a) a = m` and
`compute_accel (compute_force m a) m = a` (exact equality, hence within any
floating-point tolerance). -/
theorem arithmetic_roundtrip (m a : ℚ) (hm : 0 < m) (ha : 0 < a) :
    compute_mass (compute_force m a) a = .ok m
  ∧ compute_accel (compute_force m a) m = .ok a := by
  constructor
  · rw [compute_mass, if_neg ha.ne', compute_force, mul_div_cancel_right₀ m ha.ne']
  · rw [compute_accel, if_neg hm.ne', compute_force, mul_div_cancel_left₀ a hm.ne']

/-- Witness for C6 at mass 4, acceleration 3. -/
theorem arithmetic_roundtrip_witness :
    compute_mass (compute_force 4 3) 3 = .ok 4
  ∧ compute_accel (compute_force 4 3) 4 = .ok 3 :=
  arithmetic_roundtrip 4 3 (by norm_num) (by norm_num)

/-- C8: the classifier is symmetric in the sign of the error: for every
correct value `c` and deviation `ε`,
`classify(c + ε, c) = classify(c - ε, c)`. -/
theorem classify_error_sign_symmetric (c ε : ℚ) :
    classify_error (some (c + ε)) (some c) = classify_error (some (c - ε)) (some c) := by
  rw [classify_error_some_some, classify_error_some_some,
    add_sub_cancel_left, sub_sub_cancel_left, abs_neg]

/-- C10: the numeric classifier's codomain is
`{missing, other, none, math}`; it never returns `unit`. -/
theorem classify_error_codomain (sv cv : Option ℚ) :
    (classify_error sv cv = "missing" ∨ classify_error sv cv = "other"
     ∨ classify_error sv cv = "none" ∨ classify_error sv cv = "math")
  ∧ classify_error sv cv ≠ "unit" := by
  rcases sv with _ | s
  · simp [classify_error]
  rcases cv with _ | c
  · simp [classify_error]
  · rw [classify_error_some_some]
    split_ifs <;> simp

/-- C2: whenever a 200 response is produced and the student supplied a
non-empty unit string that fails the substring check for the target (force
requires `"N"`, mass requires `"kg"`, acceleration requires `"m/s"`), the
response's `errorType` is `unit` and `correct` is `false`, regardless of the
numeric comparison. -/
theorem unit_mismatch_precedence (o : Ontology) (req : SolveRequest) (r : SuccessResponse)
    (hok : solve (some o) req = .ok r)
    (hne : req.studentAnswer.unit ≠ "")
    (hfail :
      (strLower req.target = "force" ∧ strContains req.studentAnswer.unit ("N") = false)
    ∨ (strLower req.target = "mass" ∧ strContains req.studentAnswer.unit ("kg") = false)
    ∨ (strLower req.target = "acceleration"
        ∧ strContains req.studentAnswer.unit ("m/s") = false)) :
    r.errorType = "unit" ∧ r.correct = false := by
  obtain ⟨cv, s2, _, hr⟩ := solve_ok_inv o req r hok
  have hu := unit_check_fails_gives_unit (strLower req.target) req.studentAnswer.unit hne hfail
  rw [hr, classify_and_build_unit o _ cv _ hu]
  exact ⟨rfl, rfl⟩

/-- The claim's concrete instance: target force with correct value 12,
student answer 12 with unit `kg`. -/
def reqUnit : SolveRequest :=
  { given := { mass := some { value := some 4, unit := "kg" },
               acceleration := some { value := some 3, unit := "m/s^2" },
               force := none },
    target := "force",
    studentAnswer := { value := some 12, unit := "kg" } }

/-- The response the endpoint produces for `reqUnit`. -/
def respUnit : SuccessResponse :=
  { correct := false, correctValue := 12, target := "force", errorType := "unit",
    hint := some ("Think about which variable is missing and how to rearrange F = m × a.") }

/-- Witness for C2: target `"force"`, correct value 12, student answer
`{value: 12, unit: "kg"}` yields `errorType = "unit"` and `correct = false`
although the numeric value matches exactly. -/
theorem unit_mismatch_precedence_witness :
    solve (some kb0) reqUnit = .ok respUnit
  ∧ respUnit.errorType = "unit" ∧ respUnit.correct = false := by
  have hok : solve (some kb0) reqUnit = .ok respUnit := by
    rw [solve_force_eval kb0 reqUnit 4 3 (by decide) rfl rfl]
    have hu : unit_check_type true ("force") (reqUnit.studentAnswer.unit) = "unit" := by decide
    rw [classify_and_build_unit kb0 ("force") (4 * 3) reqUnit.studentAnswer hu]
    have hg : get_hint_from_ontology (some kb0) ("unit") =
        "Think about which variable is missing and how to rearrange F = m × a." := by decide
    rw [hg]
    norm_num [respUnit]
  exact ⟨hok, unit_mismatch_precedence kb0 reqUnit respUnit hok (by decide) (Or.inl (by decide))⟩

/-- C3: with target `"mass"`, force present and acceleration present and
exactly 0, the solver raises `ZeroDivisionError` and the endpoint answers
400 with only an error message (no `correct` field exists in a
`badRequest`); likewise target `"acceleration"` with mass 0. -/
theorem division_by_zero_400 (o : Ontology) (req : SolveRequest) :
    (strLower req.target = "mass" →
      (req.given.force.bind QuantityInput.value).isSome = true →
      req.given.acceleration.bind QuantityInput.value = some 0 →
      solve_with_ontology ("mass")
        (create_problem_from_request
          (req.given.mass.bind QuantityInput.value)
          (req.given.acceleration.bind QuantityInput.value)
          (req.given.force.bind QuantityInput.value)) = .error .zeroDivisionError
      ∧ solve (some o) req = .badRequest ("Division by zero – check your input values."))
  ∧ (strLower req.target = "acceleration" →
      (req.given.force.bind QuantityInput.value).isSome = true →
      req.given.mass.bind QuantityInput.value = some 0 →
      solve_with_ontology ("acceleration")
        (create_problem_from_request
          (req.given.mass.bind QuantityInput.value)
          (req.given.acceleration.bind QuantityInput.value)
          (req.given.force.bind QuantityInput.value)) = .error .zeroDivisionError
      ∧ solve (some o) req = .badRequest ("Division by zero – check your input values.")) := by
  constructor
  · intro ht hf ha
    obtain ⟨f, hv⟩ := Option.isSome_iff_exists.mp hf
    have hsw := solve_with_ontology_mass_accel_zero
      (create_problem_from_request
        (req.given.mass.bind QuantityInput.value)
        (req.given.acceleration.bind QuantityInput.value)
        (req.given.force.bind QuantityInput.value)) f
      (by simp [create_problem_from_request, hv]) (by simp [create_problem_from_request, ha])
    refine ⟨hsw, ?_⟩
    apply solve_zeroDivision_to_400
    rw [ht]
    exact hsw
  · intro ht hf hm
    obtain ⟨f, hv⟩ := Option.isSome_iff_exists.mp hf
    have hsw := solve_with_ontology_accel_mass_zero
      (create_problem_from_request
        (req.given.mass.bind QuantityInput.value)
        (req.given.acceleration.bind QuantityInput.value)
        (req.given.force.bind QuantityInput.value)) f
      (by simp [create_problem_from_request, hv]) (by simp [create_problem_from_request, hm])
    refine ⟨hsw, ?_⟩
    apply solve_zeroDivision_to_400
    rw [ht]
    exact hsw

/-- A request asking for the mass with acceleration 0. -/
def reqDiv : SolveRequest :=
  { given := { mass := none,
               acceleration := some { value := some 0, unit := "m/s^2" },
               force := some { value := some 12, unit := "N" } },
    target := "mass",
    studentAnswer := { value := some 3, unit := "kg" } }

/-- Witness for C3 at the request `reqDiv` (target mass, force 12,
acceleration 0). -/
theorem division_by_zero_400_witness :
    solve_with_ontology ("mass")
      (create_problem_from_request
        (reqDiv.given.mass.bind QuantityInput.value)
        (reqDiv.given.acceleration.bind QuantityInput.value)
        (reqDiv.given.force.bind QuantityInput.value)) = .error .zeroDivisionError
  ∧ solve (some kb0) reqDiv = .badRequest ("Division by zero – check your input values.") :=
  (division_by_zero_400 kb0 reqDiv).1 (by decide) rfl rfl

/-- C4: any target outside `{mass, acceleration, force}` makes the solver
raise `ValueError("Invalid target")` and the endpoint answer 400 with body
`{error: "Invalid target"}`, producing no solve result. -/
theorem invalid_target_400 (o : Ontology) (req : SolveRequest)
    (h1 : strLower req.target ≠ "force")
    (h2 : strLower req.target ≠ "acceleration")
    (h3 : strLower req.target ≠ "mass") :
    solve (some o) req = .badRequest ("Invalid target") := by
  apply solve_valueError_to_400
  simp [solve_with_ontology, h1, h2, h3]

/-- A request with the unknown target `"energy"`. -/
def reqEnergy : SolveRequest :=
  { given := { mass := some { value := some 4, unit := "kg" },
               acceleration := some { value := some 3, unit := "m/s^2" },
               force := none },
    target := "energy",
    studentAnswer := { value := some 12, unit := "J" } }

/-- Witness for C4 at target `"energy"`. -/
theorem invalid_target_400_witness :
    solve (some kb0) reqEnergy = .badRequest ("Invalid target") :=
  invalid_target_400 kb0 reqEnergy (by decide) (by decide) (by decide)

/-- C5: for target `"force"`, a missing mass or acceleration raises the
`MissingInput` `ValueError` (the error result carries no value and leaves
the slots untouched), and the endpoint answers 400 with that message; when
both are present the solver returns `mass * acceleration` and writes it into
the force slot, leaving the mass and acceleration slots unchanged. -/
theorem solve_force_contract (s : Slots) (o : Ontology) (req : SolveRequest) :
    ((s.mass = none ∨ s.accel = none) →
      solve_with_ontology ("force") s =
        .error (.valueError ("Mass and acceleration are required to compute force.")))
  ∧ (∀ m a : ℚ, s.mass = some m → s.accel = some a →
      solve_with_ontology ("force") s =
        .ok (m * a, { mass := some m, accel := some a, force := some (m * a) }))
  ∧ (strLower req.target = "force" →
      (req.given.mass.bind QuantityInput.value = none ∨
       req.given.acceleration.bind QuantityInput.value = none) →
      solve (some o) req =
        .badRequest ("Mass and acceleration are required to compute force.")) := by
  refine ⟨solve_with_ontology_force_missing s, ?_, ?_⟩
  · obtain ⟨sm, sa, sf⟩ := s
    intro m a hm ha
    simp only at hm ha
    subst hm
    subst ha
    simp [solve_with_ontology, compute_force]
  · intro ht hmiss
    apply solve_valueError_to_400
    rw [ht]
    apply solve_with_ontology_force_missing
    rcases hmiss with h | h
    · exact Or.inl (by simp [create_problem_from_request, h])
    · exact Or.inr (by simp [create_problem_from_request, h])

/-- Witness for C5: mass 4 and acceleration 3 present, the force slot is
filled with 12 and the other slots keep their values. -/
theorem solve_force_contract_witness :
    solve_with_ontology ("force") { mass := some 4, accel := some 3, force := none } =
      .ok (4 * 3, { mass := some 4, accel := some 3, force := some (4 * 3) }) :=
  (solve_force_contract { mass := some 4, accel := some 3, force := none } kb0
      { given := { mass := none, acceleration := none, force := none },
        target := "force",
        studentAnswer := { value := none, unit := "" } }).2.1 4 3 rfl rfl

/-- The spec's concrete scenario request: mass 4, acceleration 3, target
force, student answer 11 N. -/
def reqC7 : SolveRequest :=
  { given := { mass := some { value := some 4, unit := "kg" },
               acceleration := some { value := some 3, unit := "m/s^2" },
               force := none },
    target := "force",
    studentAnswer := { value := some 11, unit := "N" } }

/-- C7: for `given = {mass: 4, acceleration: 3}`, target `"force"`,
student answer `{value: 11, unit: "N"}`, the endpoint returns correct value
12, `errorType = "math"` (relative error 1/12 > 0.05), `correct = false`,
and the hint selected for the `math` key — the arithmetic-recheck text of
the knowledge base, whatever its loaded hint texts are. -/
theorem concrete_force_scenario (o : Ontology) :
    solve (some o) reqC7 =
      .ok { correct := false, correctValue := 12, target := "force", errorType := "math",
            hint := some (get_hint_from_ontology (some o) ("math")) } := by
  rw [solve_force_eval o reqC7 4 3 (by decide) rfl rfl]
  have h12 : (4 : ℚ) * 3 = 12 := by norm_num
  rw [h12]
  have hu : unit_check_type true ("force") (reqC7.studentAnswer.unit) = "none" := by decide
  have hc : classify_error reqC7.studentAnswer.value (some 12) = "math" := by
    norm_num [classify_error, reqC7]
  rw [classify_and_build_math o ("force") 12 reqC7.studentAnswer hu hc]

/-- C9: in every 200 response, `correct` is true exactly when `errorType`
is `"none"`, and `hint` is null exactly when `correct` is true. -/
theorem success_correct_hint_iff (o : Ontology) (req : SolveRequest) (r : SuccessResponse)
    (hok : solve (some o) req = .ok r) :
    (r.correct = true ↔ r.errorType = "none") ∧ (r.hint = none ↔ r.correct = true) := by
  obtain ⟨cv, s2, _, hr⟩ := solve_ok_inv o req r hok
  obtain ⟨et, hb⟩ := classify_and_build_cases o (strLower req.target) cv req.studentAnswer
  rw [hr, hb]
  by_cases h : et = "none"
  · simp [h]
  · simp [h]

/-- A correctly answered request: mass 4, acceleration 3, target force,
student answer 12 N. -/
def reqC9 : SolveRequest :=
  { given := { mass := some { value := some 4, unit := "kg" },
               acceleration := some { value := some 3, unit := "m/s^2" },
               force := none },
    target := "force",
    studentAnswer := { value := some 12, unit := "N" } }

/-- The response the endpoint produces for `reqC9`. -/
def respC9 : SuccessResponse :=
  { correct := true, correctValue := 12, target := "force", errorType := "none",
    hint := none }

/-- Witness for C9 at `reqC9`: a correct answer yields
`correct = true`, `errorType = "none"` and a null hint. -/
theorem success_correct_hint_iff_witness :
    (respC9.correct = true ↔ respC9.errorType = "none")
  ∧ (respC9.hint = none ↔ respC9.correct = true) :=
  success_correct_hint_iff kb0 reqC9 respC9 (by
    rw [solve_force_eval kb0 reqC9 4 3 (by decide) rfl rfl]
    have hu : unit_check_type true ("force") (reqC9.studentAnswer.unit) = "none" := by decide
    have hc : classify_error reqC9.studentAnswer.value (some (4 * 3 : ℚ)) = "none" := by
      norm_num [classify_error, reqC9]
    rw [classify_and_build_none kb0 ("force") (4 * 3) reqC9.studentAnswer hu hc]
    norm_num [respC9])

end NewtonTutor
